import Mathlib

/-!
Verification of the persistent-session capability proxy (`mcpserver.py`).

The development shallowly embeds the module `mcpserver.py`: its global
session state, the session start/stop procedures, the proxy-tool
registration loop, the per-endpoint forwarding closure `proxy_fn`, and the
`lifespan` sequencing.  Python strings become `String`, `None`-able values
become `Option`, JSON payloads become an inductive `Json` type, and the
effects that matter to the claims (backend calls, context-manager
enter/exit, lifecycle events) are made explicit as data.
-/

namespace MCPServer

/-- JSON values, the codomain of `block.model_dump()` and the type of the
keyword-argument values forwarded to the backend.  `json.dumps` is modelled
by `Json.dumps` below. -/
inductive Json where
  | null
  | bool (b : Bool)
  | num (n : Int)
  | str (s : String)
  | arr (xs : List Json)
  | obj (kvs : List (String × Json))

/-- Escape of a character inside a JSON string literal: quotation marks and
backslashes are backslash-escaped, as `json.dumps` does (escaping of control
characters is elided; none of the claims exercise it). -/
def escapeChar (c : Char) : List Char :=
  if c = Char.ofNat 34 then [Char.ofNat 92, Char.ofNat 34]
  else if c = Char.ofNat 92 then [Char.ofNat 92, Char.ofNat 92]
  else [c]

/-- Escape of a whole string for inclusion in JSON output. -/
def escapeString (s : String) : String :=
  String.mk (s.data.foldr (fun c acc => escapeChar c ++ acc) [])

mutual

/-- Deterministic serialization of a `Json` value, mirroring Python
`json.dumps` with its default separators. -/
def Json.dumps : Json → String
  | Json.null => "null"
  | Json.bool true => "true"
  | Json.bool false => "false"
  | Json.num n => toString n
  | Json.str s => "\"" ++ escapeString s ++ "\""
  | Json.arr xs => "[" ++ Json.dumpsArr xs ++ "]"
  | Json.obj kvs => "\x7b" ++ Json.dumpsObj kvs ++ "\x7d"

/-- Comma-separated serialization of a JSON array body. -/
def Json.dumpsArr : List Json → String
  | [] => ""
  | [x] => Json.dumps x
  | x :: y :: rest => Json.dumps x ++ ", " ++ Json.dumpsArr (y :: rest)

/-- Comma-separated serialization of a JSON object body. -/
def Json.dumpsObj : List (String × Json) → String
  | [] => ""
  | [(k, v)] => "\"" ++ escapeString k ++ "\": " ++ Json.dumps v
  | (k, v) :: p :: rest =>
      "\"" ++ escapeString k ++ "\": " ++ Json.dumps v ++ ", " ++
        Json.dumpsObj (p :: rest)

end

/-- One content block of an `InvocationResult`.  `text s` embeds an
`mcp.types.TextContent` block with `block.text = s`; `structured payload`
embeds any other block, with `payload` standing for `block.model_dump()`. -/
inductive ContentBlock where
  | text (s : String)
  | structured (payload : Json)

/-- Body of the `for block in result.content` loop of `proxy_fn`: the string
appended to `parts` for one block. -/
def renderBlock : ContentBlock → String
  | ContentBlock.text s => s
  | ContentBlock.structured payload => Json.dumps payload

/-- The `parts` list accumulated by `proxy_fn`: starts empty, appends the
rendering of each block in order. -/
def collectParts (blocks : List ContentBlock) : List String :=
  blocks.foldl (fun parts b => parts ++ [renderBlock b]) []

/-- Translation performed by `proxy_fn` on an invocation result:
`"\n".join(parts)`. -/
def proxyTranslate (blocks : List ContentBlock) : String :=
  String.intercalate "\n" (collectParts blocks)

theorem collectParts_cons (b : ContentBlock) (blocks : List ContentBlock) :
    collectParts (b :: blocks) =
      renderBlock b :: collectParts blocks := by
  show List.foldl _ ([] ++ [renderBlock b]) blocks = _
  suffices h : ∀ acc : List String,
      blocks.foldl (fun parts x => parts ++ [renderBlock x]) acc =
        acc ++ blocks.foldl (fun parts x => parts ++ [renderBlock x]) [] by
    rw [h ([] ++ [renderBlock b])]
    simp [collectParts]
  intro acc
  induction blocks generalizing acc with
  | nil => simp
  | cons x xs ih =>
      simp only [List.foldl_cons]
      rw [ih (acc ++ [renderBlock x]), ih ([] ++ [renderBlock x])]
      simp

theorem collectParts_eq_map (blocks : List ContentBlock) :
    collectParts blocks = blocks.map renderBlock := by
  induction blocks with
  | nil => rfl
  | cons b bs ih => rw [collectParts_cons, ih, List.map_cons]

/-- An operation descriptor returned by `list_tools`: an `mcp.types.Tool`.
`description` is optional in the wire type (`str | None`). -/
structure Tool where
  name : String
  description : Option String
  inputSchema : Json

/-- Semantics of the Python expression `a or b` for `a : str | None`: `b`
when `a` is `None` or the empty (falsy) string, otherwise `a`. -/
def pyOr (a : Option String) (b : String) : String :=
  match a with
  | none => b
  | some s => if s = "" then b else s

/-- One call of `mcp.add_tool` as issued by `_register_tool`: the endpoint
name and description passed to the front, together with the attributes set
on the forwarding function — its `__name__`, its `__doc__`, and
`closedName`, the sole piece of data the `proxy_fn` closure captures. -/
structure Registration where
  name : String
  description : String
  fnName : String
  fnDoc : String
  closedName : String

/-- Embedding of `_register_tool`: computes `tool_name` and
`tool_description = tool.description or tool_name`, builds `proxy_fn`
closed over `tool_name` alone, and registers it under `tool_name` with
`tool_description`. -/
def registerTool (tool : Tool) : Registration :=
  let toolName := tool.name
  let toolDescription := pyOr tool.description toolName
  { name := toolName
    description := toolDescription
    fnName := toolName
    fnDoc := toolDescription
    closedName := toolName }

/-- Embedding of the loop of `register_proxy_tools`: one `_register_tool`
call per discovered tool, in list order. -/
def registerProxyTools (tools : List Tool) : List Registration :=
  tools.map registerTool

/-- State of one of the module-level context-manager globals (`_stdio_cm`,
`_session_cm`): whether `__aenter__` succeeded on it, and how many times
`__aexit__` has been invoked on it. -/
structure CM where
  entered : Bool
  exitCount : Nat
deriving DecidableEq, Repr

/-- The module's global mutable state: `_stdio_cm`, `_session_cm` (each
`None` until assigned) and `_session` (the live session, identified by a
generation number so that replacement is observable). -/
structure ServerState where
  stdio_cm : Option CM
  session_cm : Option CM
  session : Option Nat
deriving DecidableEq, Repr

/-- The state at module load: all three globals are `None`. -/
def initState : ServerState := { stdio_cm := none, session_cm := none, session := none }

/-- Point at which `start_playwright_session` stops executing: either it
runs to completion, or one of its awaited steps raises.  `spawnFailed`
models `stdio_client(...).__aenter__()` raising; `handshakeFailed` models
`initialize()` raising after both context managers were entered. -/
inductive StartOutcome where
  | spawnFailed
  | handshakeFailed
  | ok
deriving DecidableEq, Repr

/-- Embedding of `start_playwright_session`: assigns `_stdio_cm` and enters
it, assigns `_session_cm`, enters it and stores the result in `_session`,
then awaits `initialize()`.  There is no `try`/`finally`: a failure leaves
every assignment made so far in place and propagates (the returned `Bool`
is `true` iff the function returned normally).  `gen` identifies the new
session. -/
def startPlaywrightSession (gen : Nat) (outcome : StartOutcome)
    (st : ServerState) : ServerState × Bool :=
  match outcome with
  | StartOutcome.spawnFailed =>
      ({ st with stdio_cm := some { entered := false, exitCount := 0 } }, false)
  | StartOutcome.handshakeFailed =>
      ({ stdio_cm := some { entered := true, exitCount := 0 }
         session_cm := some { entered := true, exitCount := 0 }
         session := some gen }, false)
  | StartOutcome.ok =>
      ({ stdio_cm := some { entered := true, exitCount := 0 }
         session_cm := some { entered := true, exitCount := 0 }
         session := some gen }, true)

/-- Effect of `__aexit__` on a context-manager global. -/
def exitCM (cm : CM) : CM := { cm with exitCount := cm.exitCount + 1 }

/-- Embedding of `stop_playwright_session`: `if _session_cm:` exit it,
`if _stdio_cm:` exit it, then set `_session = None`.  Note that
`_session_cm` and `_stdio_cm` are left assigned. -/
def stopPlaywrightSession (st : ServerState) : ServerState :=
  let st1 :=
    match st.session_cm with
    | some cm => { st with session_cm := some (exitCM cm) }
    | none => st
  let st2 :=
    match st1.stdio_cm with
    | some cm => { st1 with stdio_cm := some (exitCM cm) }
    | none => st1
  { st2 with session := none }

/-- A context-manager global holds no live resource exactly when it was
never entered or has been exited at least once. -/
def cmReleased : Option CM → Bool
  | none => true
  | some cm => !cm.entered || decide (1 ≤ cm.exitCount)

/-- Both the subprocess channel (`_stdio_cm`) and the client session
(`_session_cm`) are released. -/
def resourcesReleased (st : ServerState) : Bool :=
  cmReleased st.stdio_cm && cmReleased st.session_cm

/-- Final global state of one `lifespan` run: `start_playwright_session`,
then (on success) `register_proxy_tools`, the served interval at `yield`,
and `stop_playwright_session`.  When `start` raises, the
`asynccontextmanager` propagates the exception before the `yield`, so the
stop call is never reached and the state is whatever `start` left. -/
def lifespanFinalState (gen : Nat) (outcome : StartOutcome) : ServerState :=
  let (st, ok) := startPlaywrightSession gen outcome initState
  if ok then stopPlaywrightSession st else st

/-- Observable lifecycle events of one `lifespan` run, in program order. -/
inductive Event where
  | spawn
  | handshake
  | register (name : String)
  | ready
  | exitSession
  | exitStdio
deriving DecidableEq, Repr

/-- Event trace of one `lifespan` run.  On the successful path the spawn
and the `initialize()` handshake precede the registration loop, which
precedes the `yield` (`ready`, the point where the server starts serving),
which precedes the teardown.  On a failed start the exception propagates
before any registration and before the `yield`. -/
def lifespanTrace (outcome : StartOutcome) (tools : List Tool) : List Event :=
  match outcome with
  | StartOutcome.spawnFailed => []
  | StartOutcome.handshakeFailed => [Event.spawn]
  | StartOutcome.ok =>
      [Event.spawn, Event.handshake] ++
        tools.map (fun t => Event.register t.name) ++
        [Event.ready, Event.exitSession, Event.exitStdio]

/-- One request the proxy issues on the backend channel:
`_session.call_tool(tool_name, arguments=kwargs)` against the session that
is live at call time. -/
structure BackendCall where
  session : Nat
  name : String
  args : List (String × Json)

/-- A Python exception escaping `proxy_fn`.  `attributeErrorNone` is the
`AttributeError` raised by `_session.call_tool` when `_session` is
`None`. -/
inductive PyError where
  | attributeErrorNone
deriving DecidableEq, Repr

/-- Embedding of one happy-path invocation of `proxy_fn`.  `closedName` is
the `tool_name` the closure captured, `st` the global state at call time,
`args` the keyword arguments, and `reply` the content of the
`InvocationResult` the backend returns for this call.  The result pairs the
returned string (or the raised exception) with the list of backend calls
issued: dereferencing `_session = None` raises before anything is sent;
otherwise exactly one `call_tool` request is issued and its reply is
translated. -/
def proxyFn (closedName : String) (st : ServerState)
    (args : List (String × Json)) (reply : List ContentBlock) :
    Except PyError String × List BackendCall :=
  match st.session with
  | none => (Except.error PyError.attributeErrorNone, [])
  | some s =>
      (Except.ok (proxyTranslate reply),
        [{ session := s, name := closedName, args := args }])

/-- Atomic step of a concurrent invocation, as seen by an instrumented
backend: the backend call of task `i` starts (the request is sent) or
finishes (the correlated response is received). -/
inductive CEvent where
  | callStart (task : Nat)
  | callEnd (task : Nat)
deriving DecidableEq, Repr

/-- Steps of one `proxy_fn` execution on the shared session, task `i`:
the single `await _session.call_tool(...)` sends the request and suspends
until the response arrives, so the backend call of the task starts and
later ends, with the event loop free to run other tasks in between.
`proxy_fn` takes no lock, acquires no semaphore and touches no queue, so
this per-task order is the only constraint the code imposes. -/
def taskSteps (i : Nat) : List CEvent := [CEvent.callStart i, CEvent.callEnd i]

/-- All interleavings of two event sequences that preserve each sequence's
internal order: the schedules the event loop may produce for two
concurrently running tasks. -/
def interleavings : List CEvent → List CEvent → List (List CEvent)
  | [], ys => [ys]
  | x :: xs, [] => [x :: xs]
  | x :: xs, y :: ys =>
      (interleavings xs (y :: ys)).map (fun tr => x :: tr) ++
        (interleavings (x :: xs) ys).map (fun tr => y :: tr)

/-- Schedules of two concurrent external calls handled by `proxy_fn` on
the shared session. -/
def concurrentTraces : List (List CEvent) :=
  interleavings (taskSteps 1) (taskSteps 2)

/-- Number of in-flight backend calls never exceeds one along the trace:
the serialize property (the first call completes before the second
starts). -/
def serializedFrom (inFlight : Nat) : List CEvent → Bool
  | [] => true
  | CEvent.callStart _ :: rest =>
      decide (inFlight = 0) && serializedFrom (inFlight + 1) rest
  | CEvent.callEnd _ :: rest => serializedFrom (inFlight - 1) rest

/-- A trace is serialized when, starting from an idle backend, at most one
call is ever in flight. -/
def serialized (tr : List CEvent) : Bool := serializedFrom 0 tr

/-- The trace respects task order: `callStart i` precedes `callEnd i` for
each task.  This is the per-call request-before-response order, the only
ordering `proxy_fn` guarantees. -/
def respectsTaskOrder (tr : List CEvent) (i : Nat) : Bool :=
  match tr.indexOf? (CEvent.callStart i), tr.indexOf? (CEvent.callEnd i) with
  | some a, some b => decide (a < b)
  | _, _ => false

/-- C1: the proxy's translation of an `InvocationResult` iterates the
content blocks in order, appends the text of each `Text` block verbatim
and the deterministic JSON serialization of each `Structured` block, and
joins the parts with a single newline; in particular
`[Text "a", Text "b"]` yields `"a\nb"`, `[Text "hello"]` yields `"hello"`,
and the empty sequence yields the empty string. -/
theorem C1_translation_rule :
    (∀ blocks : List ContentBlock,
        proxyTranslate blocks = String.intercalate "\n" (blocks.map renderBlock)) ∧
    (∀ s : String, renderBlock (ContentBlock.text s) = s) ∧
    (∀ payload : Json,
        renderBlock (ContentBlock.structured payload) = Json.dumps payload) ∧
    proxyTranslate [ContentBlock.text "a", ContentBlock.text "b"] = "a\nb" ∧
    proxyTranslate [ContentBlock.text "hello"] = "hello" ∧
    proxyTranslate [] = "" := by
  refine ⟨?_, fun s => rfl, fun payload => rfl, by decide, by decide, rfl⟩
  intro blocks
  rw [proxyTranslate, collectParts_eq_map]

/-- C2 counterexample: a descriptor named `"op"` whose description is the
empty string is registered with description `"op"`, not with the
descriptor's own description `""`. -/
theorem C2_description_mismatch :
    (registerTool
        { name := "op", description := some "", inputSchema := Json.null }).description
      = "op" ∧
    ("op" : String) ≠ "" := by
  exact ⟨rfl, by decide⟩

/-- C2 amended: proxy-table construction registers exactly N endpoints,
one per descriptor in order, each under the descriptor's own name; the
registered description equals the descriptor's description whenever that
description is present and nonempty, and equals the descriptor's name when
the description is absent or empty. -/
theorem C2_registration_one_to_one (tools : List Tool) (t : Tool) (i : Nat)
    (_hu : (tools.map Tool.name).Nodup) (ht : tools.get? i = some t) :
    (registerProxyTools tools).length = tools.length ∧
    ((registerProxyTools tools).get? i).map Registration.name = some t.name ∧
    (∀ s, t.description = some s → s ≠ "" →
      ((registerProxyTools tools).get? i).map Registration.description = some s) ∧
    ((t.description = none ∨ t.description = some "") →
      ((registerProxyTools tools).get? i).map Registration.description = some t.name) := by
  have hr : (registerProxyTools tools).get? i = some (registerTool t) := by
    rw [registerProxyTools, List.get?_map, ht, Option.map_some']
  refine ⟨by simp [registerProxyTools], ?_, ?_, ?_⟩
  · rw [hr]; rfl
  · intro s hs hne
    rw [hr]
    simp [registerTool, pyOr, hs, hne]
  · intro h
    rw [hr]
    rcases h with h | h <;> simp [registerTool, pyOr, h]

/-- C2 witness: the counterexample descriptor, registered on its own,
yields one endpoint named `"op"` whose description is `"op"`. -/
theorem C2_registration_one_to_one_witness :
    (registerProxyTools
        [{ name := "op", description := some "", inputSchema := Json.null }]).length = 1 ∧
    ((registerProxyTools
        [{ name := "op", description := some "", inputSchema := Json.null }]).get? 0).map
      Registration.description = some "op" := by
  have h := C2_registration_one_to_one
    [{ name := "op", description := some "", inputSchema := Json.null }]
    { name := "op", description := some "", inputSchema := Json.null }
    0 (by simp) rfl
  exact ⟨h.1, h.2.2.2 (Or.inr rfl)⟩

/-- C3 counterexample: with Discovery returning two descriptors both named
`"op"`, the registration loop registers both without raising any error,
and the lifecycle still reaches the ready point. -/
theorem C3_duplicates_registered :
    (registerProxyTools
        [{ name := "op", description := none, inputSchema := Json.null },
         { name := "op", description := none, inputSchema := Json.null }]).length = 2 ∧
    (lifespanTrace StartOutcome.ok
        [{ name := "op", description := none, inputSchema := Json.null },
         { name := "op", description := none, inputSchema := Json.null }]).count
      (Event.register "op") = 2 ∧
    Event.ready ∈ lifespanTrace StartOutcome.ok
        [{ name := "op", description := none, inputSchema := Json.null },
         { name := "op", description := none, inputSchema := Json.null }] := by
  refine ⟨rfl, by decide, by decide⟩

/-- C3 amended: proxy-table construction performs no duplicate-name check:
it registers one endpoint per descriptor, duplicates included, in list
order, and the service reaches the ready point regardless; whatever
deduplication happens is the network-front library's behaviour, not a
`DiscoveryError`. -/
theorem C3_no_duplicate_check (tools : List Tool) :
    (registerProxyTools tools).length = tools.length ∧
    (registerProxyTools tools).map Registration.name = tools.map Tool.name ∧
    Event.ready ∈ lifespanTrace StartOutcome.ok tools := by
  refine ⟨by simp [registerProxyTools], ?_, ?_⟩
  · simp only [registerProxyTools, List.map_map]
    rfl
  · simp [lifespanTrace]

/-- C4 counterexample: when `initialize()` raises after both context
managers were entered, the exception propagates out of the lifespan before
the `yield`, stop is never invoked, and neither the channel nor the client
session is released; moreover, because stop leaves `_session_cm` and
`_stdio_cm` assigned, a second stop invokes `__aexit__` on both again, so
two stops do not leave the state one stop leaves. -/
theorem C4_partial_start_leak :
    resourcesReleased (lifespanFinalState 0 StartOutcome.handshakeFailed) = false ∧
    stopPlaywrightSession
        (stopPlaywrightSession (startPlaywrightSession 0 StartOutcome.ok initState).1)
      ≠ stopPlaywrightSession (startPlaywrightSession 0 StartOutcome.ok initState).1 := by
  exact ⟨rfl, by decide⟩

/-- C4 amended: stop always completes and clears the session reference; it
is safe (a no-op) when start never ran; and on the successful lifespan path
the channel and session resources are released.  However, when start fails
partway (handshake failure after acquisition) the failure propagates
without any cleanup — stop is not invoked on that path and the acquired
resources are not released — and a repeated stop re-invokes `__aexit__` on
the still-assigned context managers rather than leaving the state
unchanged. -/
theorem C4_stop_behavior (gen : Nat) (st : ServerState) :
    (stopPlaywrightSession st).session = none ∧
    stopPlaywrightSession initState = initState ∧
    resourcesReleased (lifespanFinalState gen StartOutcome.ok) = true ∧
    resourcesReleased (lifespanFinalState gen StartOutcome.handshakeFailed) = false := by
  exact ⟨rfl, rfl, rfl, rfl⟩

/-- C5: one happy-path invocation of a registered endpoint issues exactly
one backend `call_tool` request, carrying exactly the closed-over operation
name and exactly the caller's arguments, and no other backend calls. -/
theorem C5_single_backend_call (closedName : String) (st : ServerState)
    (s : Nat) (args : List (String × Json)) (reply : List ContentBlock)
    (h : st.session = some s) :
    (proxyFn closedName st args reply).2 =
      [{ session := s, name := closedName, args := args }] := by
  unfold proxyFn
  rw [h]

/-- C5 witness: invoking `"foo"` with arguments `x = 1` on a live session
issues the single backend call `callOperation("foo", x = 1)`. -/
theorem C5_single_backend_call_witness :
    (proxyFn "foo" { stdio_cm := none, session_cm := none, session := some 7 }
        [("x", Json.num 1)] []).2 =
      [{ session := 7, name := "foo", args := [("x", Json.num 1)] }] :=
  C5_single_backend_call "foo"
    { stdio_cm := none, session_cm := none, session := some 7 }
    7 [("x", Json.num 1)] [] rfl

/-- C6: in the lifespan trace, everything before the ready point is
exactly the spawn, the handshake and the registration of every discovered
tool — so serving begins only after the handshake and discovery succeeded
and the table is fully installed; a failed spawn or handshake produces a
trace with no ready point; and with zero tools the ready point is still
reached, immediately after the handshake. -/
theorem C6_ready_after_population (tools : List Tool) :
    (lifespanTrace StartOutcome.ok tools).take (2 + tools.length) =
      [Event.spawn, Event.handshake] ++ tools.map (fun t => Event.register t.name) ∧
    (lifespanTrace StartOutcome.ok tools).get? (2 + tools.length) = some Event.ready ∧
    lifespanTrace StartOutcome.spawnFailed tools = [] ∧
    lifespanTrace StartOutcome.handshakeFailed tools = [Event.spawn] ∧
    (lifespanTrace StartOutcome.ok []).get? 2 = some Event.ready := by
  have hlen :
      ([Event.spawn, Event.handshake] ++
          tools.map (fun t => Event.register t.name)).length = 2 + tools.length := by
    simp only [List.length_append, List.length_map, List.length_cons, List.length_nil]
  have h1 : lifespanTrace StartOutcome.ok tools =
      ([Event.spawn, Event.handshake] ++ tools.map (fun t => Event.register t.name)) ++
        [Event.ready, Event.exitSession, Event.exitStdio] := by
    simp [lifespanTrace]
  refine ⟨?_, ?_, rfl, rfl, rfl⟩
  · rw [h1, ← hlen, List.take_left]
  · rw [h1, ← hlen, List.get?_append_right (Nat.le_refl _)]
    simp

/-- C7: every registered forwarding function closes over the operation's
name alone, and each invocation targets whichever session is live in the
global state at call time: the same registered closure, run under two
states holding different sessions, issues its backend call on each state's
own session, with no re-registration; and its behaviour depends on the
global state only through the current session. -/
theorem C7_forward_targets_live_session (t : Tool) (st1 st2 : ServerState)
    (s1 s2 : Nat) (args : List (String × Json)) (reply : List ContentBlock)
    (h1 : st1.session = some s1) (h2 : st2.session = some s2) :
    (registerTool t).closedName = t.name ∧
    (proxyFn (registerTool t).closedName st1 args reply).2 =
      [{ session := s1, name := t.name, args := args }] ∧
    (proxyFn (registerTool t).closedName st2 args reply).2 =
      [{ session := s2, name := t.name, args := args }] ∧
    (∀ st st' : ServerState, st.session = st'.session →
      proxyFn (registerTool t).closedName st args reply =
        proxyFn (registerTool t).closedName st' args reply) := by
  refine ⟨rfl, ?_, ?_, ?_⟩
  · unfold proxyFn
    rw [h1]
    rfl
  · unfold proxyFn
    rw [h2]
    rfl
  · intro st st' h
    unfold proxyFn
    rw [h]

/-- Computation of the six schedules the event loop may produce for two
concurrent two-step tasks. -/
theorem concurrentTraces_eq :
    concurrentTraces =
      [[CEvent.callStart 1, CEvent.callEnd 1, CEvent.callStart 2, CEvent.callEnd 2],
       [CEvent.callStart 1, CEvent.callStart 2, CEvent.callEnd 1, CEvent.callEnd 2],
       [CEvent.callStart 1, CEvent.callStart 2, CEvent.callEnd 2, CEvent.callEnd 1],
       [CEvent.callStart 2, CEvent.callStart 1, CEvent.callEnd 1, CEvent.callEnd 2],
       [CEvent.callStart 2, CEvent.callStart 1, CEvent.callEnd 2, CEvent.callEnd 1],
       [CEvent.callStart 2, CEvent.callEnd 2, CEvent.callStart 1, CEvent.callEnd 1]] := by
  simp [concurrentTraces, taskSteps, interleavings]

/-- C7 witness: the endpoint registered for `"click"`, invoked first while
session 1 is live and again after the session was replaced by session 2,
forwards to session 1 and then to session 2 without re-registration. -/
theorem C7_forward_targets_live_session_witness :
    (proxyFn
        (registerTool
          { name := "click", description := none, inputSchema := Json.null }).closedName
        { stdio_cm := none, session_cm := none, session := some 1 } [] []).2 =
      [{ session := 1, name := "click", args := [] }] ∧
    (proxyFn
        (registerTool
          { name := "click", description := none, inputSchema := Json.null }).closedName
        { stdio_cm := none, session_cm := none, session := some 2 } [] []).2 =
      [{ session := 2, name := "click", args := [] }] := by
  have h := C7_forward_targets_live_session
    { name := "click", description := none, inputSchema := Json.null }
    { stdio_cm := none, session_cm := none, session := some 1 }
    { stdio_cm := none, session_cm := none, session := some 2 }
    1 2 [] [] rfl rfl
  exact ⟨h.2.1, h.2.2.1⟩

/-- C8 counterexample: among the schedules the unlocked `proxy_fn` admits
for two concurrent calls is one where the second backend call starts
before the first one ends — two calls in flight at once, violating the
serialize property. -/
theorem C8_overlap_possible :
    [CEvent.callStart 1, CEvent.callStart 2, CEvent.callEnd 1, CEvent.callEnd 2]
        ∈ concurrentTraces ∧
    serialized
        [CEvent.callStart 1, CEvent.callStart 2, CEvent.callEnd 1, CEvent.callEnd 2]
      = false := by
  refine ⟨?_, rfl⟩
  rw [concurrentTraces_eq]
  decide

/-- C8 amended: the code implements no serialize policy — `proxy_fn` takes
no lock and maintains no queue, so two concurrent calls may be scheduled
in any interleaving, overlapping ones included; the only ordering the code
guarantees is within each call: its request precedes its response. -/
theorem C8_no_serialization (tr : List CEvent) (h : tr ∈ concurrentTraces) :
    respectsTaskOrder tr 1 = true ∧ respectsTaskOrder tr 2 = true := by
  have hall : ∀ x ∈ concurrentTraces,
      respectsTaskOrder x 1 = true ∧ respectsTaskOrder x 2 = true := by
    rw [concurrentTraces_eq]
    decide
  exact hall tr h

/-- C8 witness: the fully serialized FIFO schedule is one of the possible
interleavings, and it respects both tasks' internal order. -/
theorem C8_no_serialization_witness :
    respectsTaskOrder
        [CEvent.callStart 1, CEvent.callEnd 1, CEvent.callStart 2, CEvent.callEnd 2] 1
      = true ∧
    respectsTaskOrder
        [CEvent.callStart 1, CEvent.callEnd 1, CEvent.callStart 2, CEvent.callEnd 2] 2
      = true :=
  C8_no_serialization
    [CEvent.callStart 1, CEvent.callEnd 1, CEvent.callStart 2, CEvent.callEnd 2]
    (by rw [concurrentTraces_eq]; decide)

/-- C9: a discovered operation whose description is absent or empty is
registered with the operation's name as its description, and the
forwarding function's docstring equals the name as well. -/
theorem C9_empty_description_uses_name (t : Tool)
    (h : t.description = none ∨ t.description = some "") :
    (registerTool t).description = t.name ∧ (registerTool t).fnDoc = t.name := by
  rcases h with h | h <;> simp [registerTool, pyOr, h]

/-- C9 witness: a tool named `"click"` with empty description is
registered with description and docstring `"click"`. -/
theorem C9_empty_description_uses_name_witness :
    (registerTool
        { name := "click", description := some "", inputSchema := Json.null }).description
      = "click" ∧
    (registerTool
        { name := "click", description := some "", inputSchema := Json.null }).fnDoc
      = "click" :=
  C9_empty_description_uses_name
    { name := "click", description := some "", inputSchema := Json.null }
    (Or.inr rfl)

/-- C10: stop always leaves the shared session reference absent, and every
subsequent invocation of any registered endpoint raises (dereferencing the
absent session) before anything is sent: the list of backend calls it
issues is empty. -/
theorem C10_stopped_session_rejects (st : ServerState) (closedName : String)
    (args : List (String × Json)) (reply : List ContentBlock) :
    (stopPlaywrightSession st).session = none ∧
    proxyFn closedName (stopPlaywrightSession st) args reply =
      (Except.error PyError.attributeErrorNone, []) := by
  exact ⟨rfl, rfl⟩

end MCPServer
